import Mathlib

/-!
Shallow embedding of the `ergani` Python SDK
(`ergani/utils.py`, `ergani/models.py`, `ergani/auth.py`, `ergani/client.py`,
`ergani/exceptions.py`) together with theorems checking the repository's
natural-language specification against the code.

Conventions of the embedding:
* JSON values decoded by `response.json()` are modelled by the inductive
  type `Json`; Python `None` is `Json.null`.
* Python exceptions that escape the modelled functions are tracked with
  `Except PyExcKind`; `PyExcKind` lists the exception classes that the
  modelled code paths can raise.
* Python `dict` literals with string keys are association lists
  `List (String × _)`, looked up front to back (keys are unique in the
  sources, so this agrees with Python's dict semantics).
* Machine-level HTTP is out of scope: a `Response` records the fields the
  code inspects (status code, Content-Type header, body text, and the
  result of `response.json()`, which is `none` exactly when decoding the
  body raises `JSONDecodeError`).
-/

/-- JSON values, as produced by `response.json()` in the Python sources. -/
inductive Json where
  | null : Json
  | bool : Bool → Json
  | num : Int → Json
  | str : String → Json
  | arr : List Json → Json
  | obj : List (String × Json) → Json
deriving Repr

/-- Kinds of Python exceptions the embedded code paths can raise.
`validationError` corresponds to the `ValidationError` class named by the
specification; the repository's `ergani/exceptions.py` defines no such
class, but the constructor is needed to state the specification's claim. -/
inductive PyExcKind where
  | keyError
  | typeError
  | attributeError
  | validationError
deriving DecidableEq, Repr

/-- Python classes defined in `ergani/exceptions.py`. -/
def exception_classes : List String :=
  ["Error", "AuthenticationError", "APIError"]

/-- Boolean equality on `Json`, structural. -/
def Json.beq : Json → Json → Bool
  | .null, .null => true
  | .bool a, .bool b => a == b
  | .num a, .num b => a == b
  | .str a, .str b => a == b
  | .arr a, .arr b => beqList a b
  | .obj a, .obj b => beqObj a b
  | _, _ => false
where
  beqList : List Json → List Json → Bool
    | [], [] => true
    | x :: xs, y :: ys => Json.beq x y && beqList xs ys
    | _, _ => false
  beqObj : List (String × Json) → List (String × Json) → Bool
    | [], [] => true
    | (k, x) :: xs, (l, y) :: ys => k == l && Json.beq x y && beqObj xs ys
    | _, _ => false

instance : BEq Json := ⟨Json.beq⟩

/-- Does `pat` occur at the start of `s`? (on character lists) -/
def listStarts : List Char → List Char → Bool
  | [], _ => true
  | _ :: _, [] => false
  | a :: as, b :: bs => a == b && listStarts as bs

/-- Does `pat` occur anywhere inside `s`? (on character lists) -/
def listHas (pat : List Char) : List Char → Bool
  | [] => listStarts pat []
  | c :: cs => listStarts pat (c :: cs) || listHas pat cs

/-- Python's `pat in s` on strings: substring containment. -/
def strHas (s pat : String) : Bool :=
  listHas pat.data s.data

/-- Does string `s` start with `p`? -/
def strStarts (s p : String) : Bool :=
  listStarts p.data s.data

/-- Does string `s` end with `p`? -/
def strEnds (s p : String) : Bool :=
  listStarts p.data.reverse s.data.reverse

/-- Characters stripped by Python's `str.strip()`. -/
def pyIsSpace (c : Char) : Bool :=
  c == ' ' || c == '\t' || c == '\n' || c == '\r' || c == '\x0b' || c == '\x0c'

/-- Python's `str.strip()`: remove leading and trailing whitespace. -/
def pyStrip (s : String) : String :=
  ⟨((s.data.dropWhile pyIsSpace).reverse.dropWhile pyIsSpace).reverse⟩

/-- First value bound to key `k` in an association list (Python dict lookup). -/
def dictGet (d : List (String × String)) (k : String) : Option String :=
  match d with
  | [] => none
  | (k', v) :: rest => if k' == k then some v else dictGet rest k

/-- Python `d[k]` on a `dict`: the value, or a raised `KeyError`. -/
def dictGetItem (d : List (String × String)) (k : String) :
    Except PyExcKind String :=
  match dictGet d k with
  | some v => Except.ok v
  | none => Except.error PyExcKind.keyError

/-- The dict literal `movement_type_mapping` in
`get_ergani_workcard_movement_type` (`ergani/utils.py`). -/
def movement_type_mapping : List (String × String) :=
  [("ARRIVAL", "0"), ("DEPARTURE", "1")]

/-- Embeds `get_ergani_workcard_movement_type` (`ergani/utils.py`):
`return movement_type_mapping[movement_type]`, a raising dict subscript. -/
def get_ergani_workcard_movement_type (movement_type : String) :
    Except PyExcKind String :=
  dictGetItem movement_type_mapping movement_type

/-- The dict literal `justification_mapping` in
`get_ergani_late_declaration_justification` (`ergani/utils.py`). -/
def late_declaration_justification_mapping : List (String × String) :=
  [("POWER_OUTAGE", "001"),
   ("EMPLOYER_SYSTEMS_UNAVAILABLE", "002"),
   ("ERGANI_SYSTEMS_UNAVAILABLE", "003")]

/-- Embeds `get_ergani_late_declaration_justification` (`ergani/utils.py`):
`return justification_mapping.get(justification, justification)`.  The
argument is `Option String` because the call site in `WorkCard.serialize`
passes `None` for an absent justification; `dict.get(None, None)` is `None`. -/
def get_ergani_late_declaration_justification (justification : Option String) :
    Option String :=
  match justification with
  | none => none
  | some j => some ((dictGet late_declaration_justification_mapping j).getD j)

/-- Embeds `get_ergani_overtime_cancellation` (`ergani/utils.py`):
`return "0" if not cancellation else "1"`. -/
def get_ergani_overtime_cancellation (cancellation : Bool) : String :=
  if !cancellation then "0" else "1"

/-- The dict literal `justification_mapping` in
`get_ergani_overtime_justification` (`ergani/utils.py`). -/
def overtime_justification_mapping : List (String × String) :=
  [("ACCIDENT_PREVENTION_OR_DAMAGE_RESTORATION", "001"),
   ("URGENT_SEASONAL_TASKS", "002"),
   ("EXCEPTIONAL_WORKLOAD", "003"),
   ("SUPPLEMENTARY_TASKS", "004"),
   ("LOST_HOURS_SUDDEN_CAUSES", "005"),
   ("LOST_HOURS_OFFICIAL_HOLIDAYS", "006"),
   ("LOST_HOURS_WEATHER_CONDITIONS", "007"),
   ("EMERGENCY_CLOSURE_DAY", "008"),
   ("NON_WORKDAY_TASKS", "009")]

/-- Embeds `get_ergani_overtime_justification` (`ergani/utils.py`):
`return justification_mapping[justification]`, a raising dict subscript. -/
def get_ergani_overtime_justification (justification : String) :
    Except PyExcKind String :=
  dictGetItem overtime_justification_mapping justification

/-- The dict literal `work_type_mapping` in `get_ergani_work_type`
(`ergani/utils.py`). -/
def work_type_mapping : List (String × String) :=
  [("WORK_FROM_OFFICE", "ΕΡΓ"),
   ("WORK_FROM_HOME", "ΤΗΛ"),
   ("REST_DAY", "ΑΝ"),
   ("ABSENT", "ΜΕ")]

/-- Embeds `get_ergani_work_type` (`ergani/utils.py`):
`return work_type_mapping[work_type]`, a raising dict subscript. -/
def get_ergani_work_type (work_type : String) : Except PyExcKind String :=
  dictGetItem work_type_mapping work_type

/-- First value bound to key `k` in a JSON object's association list. -/
def jsonGet (kvs : List (String × Json)) (k : String) : Option Json :=
  match kvs with
  | [] => none
  | (k', v) :: rest => if k' == k then some v else jsonGet rest k

/-- Python's `key in data` for a decoded JSON value `data`: key membership
for objects (dicts), element equality for arrays (lists), substring test
for strings, and a raised `TypeError` for the non-container values
(`argument of type int is not iterable`, and likewise for null/bool). -/
def pyContains (key : String) : Json → Except PyExcKind Bool
  | .obj kvs => Except.ok ((jsonGet kvs key).isSome)
  | .arr xs => Except.ok (xs.any fun j => match j with
      | .str t => t == key
      | _ => false)
  | .str s => Except.ok (strHas s key)
  | .null => Except.error PyExcKind.typeError
  | .bool _ => Except.error PyExcKind.typeError
  | .num _ => Except.error PyExcKind.typeError

/-- Python's `data[key]` for a decoded JSON value and a string key: dict
lookup for objects (raising `KeyError` when absent), and a raised
`TypeError` for strings, arrays and the scalar values (string and list
indices must be integers; scalars are not subscriptable). -/
def pyGetItem (data : Json) (key : String) : Except PyExcKind Json :=
  match data with
  | .obj kvs =>
    match jsonGet kvs key with
    | some v => Except.ok v
    | none => Except.error PyExcKind.keyError
  | _ => Except.error PyExcKind.typeError

/-- Python truthiness of a decoded JSON value (`if not response_data`). -/
def pyFalsy : Json → Bool
  | .null => true
  | .bool b => !b
  | .num n => n == 0
  | .str s => s == ""
  | .arr xs => xs.isEmpty
  | .obj kvs => kvs.isEmpty

/-- The fields of a `requests` `Response` that the embedded code inspects.
`jsonBody` is the result of `response.json()`: `none` exactly when decoding
the body text raises `JSONDecodeError`. -/
structure Response where
  status_code : Nat
  contentType : String
  text : String
  jsonBody : Option Json
deriving Repr

/-- Embeds `extract_error_message` (`ergani/utils.py`).  The Python function
returns whatever object the branch produces (a JSON value, not always a
string), so the result is `Json`; a `TypeError` raised by an `in` test or a
subscript on a non-dict JSON body propagates as `Except.error`.  A
`JSONDecodeError` from `response.json()` is caught by the source's
`except json.JSONDecodeError: pass` and falls through to the later checks. -/
def extract_error_message (response : Response) : Except PyExcKind Json :=
  if strHas response.contentType "application/json" then
    match response.jsonBody with
    | some response_data => do
      if (← pyContains "message" response_data) then
        pyGetItem response_data "message"
      else if (← pyContains "msg" response_data) then
        pyGetItem response_data "msg"
      else if (← pyContains "detail" response_data) then
        pyGetItem response_data "detail"
      else if pyFalsy response_data then
        pure (Json.str "")
      else
        pure response_data
    | none =>
      if strHas response.contentType "text/plain" then
        Except.ok (Json.str (pyStrip response.text))
      else
        Except.ok (Json.str "")
  else if strHas response.contentType "text/plain" then
    Except.ok (Json.str (pyStrip response.text))
  else
    Except.ok (Json.str "")

/-- Decimal digits of `n`, zero-padded on the left to width `w`
(Python's `%02d`-style formatting used by `strftime`). -/
def padNum (w n : Nat) : String :=
  let s := Nat.repr n
  let k := s.length
  ⟨List.replicate (w - k) '0' ++ s.data⟩

/-- A `datetime.time` value as used by the sources (seconds never printed). -/
structure PyTime where
  hour : Nat
  minute : Nat
deriving Repr

/-- A `datetime.date` value. -/
structure PyDate where
  year : Nat
  month : Nat
  day : Nat
deriving Repr, DecidableEq

/-- A naive `datetime.datetime` value (the sources never attach tzinfo, so
`%z` formats to the empty string). -/
structure PyDatetime where
  year : Nat
  month : Nat
  day : Nat
  hour : Nat
  minute : Nat
  second : Nat
  microsecond : Nat
deriving Repr

/-- Embeds `format_time` (`ergani/utils.py`): `t.strftime("%H:%M")`, with
`""` for a falsy argument (`None`; a `time` object is always truthy on
Python 3.5+). -/
def format_time (t : Option PyTime) : String :=
  match t with
  | none => ""
  | some t => padNum 2 t.hour ++ ":" ++ padNum 2 t.minute

/-- Embeds `format_date` (`ergani/utils.py`): `d.strftime("%d/%m/%Y")`, with
`""` for `None`. -/
def format_date (d : Option PyDate) : String :=
  match d with
  | none => ""
  | some d => padNum 2 d.day ++ "/" ++ padNum 2 d.month ++ "/" ++ padNum 4 d.year

/-- Embeds Python's `date.isoformat()`: `YYYY-MM-DD`. -/
def PyDate.isoformat (d : PyDate) : String :=
  padNum 4 d.year ++ "-" ++ padNum 2 d.month ++ "-" ++ padNum 2 d.day

/-- Embeds `format_datetime` (`ergani/utils.py`):
`d.strftime("%Y-%m-%dT%H:%M:%S.%f%z")` with `""` for `None`; `%f` is the
microsecond count padded to six digits and `%z` is empty for the naive
datetimes this SDK builds. -/
def format_datetime (d : Option PyDatetime) : String :=
  match d with
  | none => ""
  | some d =>
    padNum 4 d.year ++ "-" ++ padNum 2 d.month ++ "-" ++ padNum 2 d.day ++
    "T" ++ padNum 2 d.hour ++ ":" ++ padNum 2 d.minute ++ ":" ++
    padNum 2 d.second ++ "." ++ padNum 6 d.microsecond

/-- Days in a month of the proleptic Gregorian calendar (CPython's
`_days_in_month`). -/
def daysInMonth (year month : Nat) : Nat :=
  if month == 2 then
    if year % 4 == 0 && (year % 100 != 0 || year % 400 == 0) then 29 else 28
  else if month == 4 || month == 6 || month == 9 || month == 11 then 30
  else 31

/-- Days in the full months of `year` strictly before `month`
(CPython's `_days_before_month`). -/
def daysBeforeMonth (year : Nat) : Nat → Nat
  | 0 => 0
  | m + 1 => if m == 0 then 0 else daysBeforeMonth year m + daysInMonth year m

/-- Days before January 1 of `year` in the proleptic Gregorian calendar
(CPython's `_days_before_year`). -/
def daysBeforeYear (year : Nat) : Nat :=
  let y := year - 1
  y * 365 + y / 4 - y / 100 + y / 400

/-- Embeds Python's `date.toordinal()`: day 1 is January 1 of year 1. -/
def PyDate.toordinal (d : PyDate) : Nat :=
  daysBeforeYear d.year + daysBeforeMonth d.year d.month + d.day

/-- Embeds Python's `date.weekday()`: `(toordinal() + 6) % 7`, Monday = 0
through Sunday = 6 (January 1 of year 1 was a Monday). -/
def PyDate.weekday (d : PyDate) : Nat :=
  (d.toordinal + 6) % 7

/-- Embeds `get_day_of_week` (`ergani/utils.py`):
`(d.weekday() + 1) % 7`, with the source's `""` branch for a falsy argument
modelled by `none` (a genuine `date` is always truthy). -/
def get_day_of_week (d : Option PyDate) : Option Nat :=
  match d with
  | none => none
  | some d => some ((d.weekday + 1) % 7)

/-- Coercion of a Python `Optional[str]` value into JSON (`None` → null). -/
def optJson : Option String → Json
  | none => Json.null
  | some s => Json.str s

/-- Embeds `WorkCard` (`ergani/models.py`): the dataclass fields, with the
enum-typed fields carried as the string literals of `ergani/typings.py`. -/
structure WorkCard where
  employee_tax_identification_number : String
  employee_last_name : String
  employee_first_name : String
  work_card_movement_type : String
  work_card_submission_date : PyDate
  work_card_movement_datetime : PyDatetime
  late_declaration_justification : Option String

/-- Embeds `WorkCard.serialize` (`ergani/models.py`).  The movement-type
translation is a raising dict subscript, so serialization is fallible; note
the source formats `f_reference_date` with `date.isoformat()` while the
other date fields of the module go through `format_date`. -/
def WorkCard.serialize (w : WorkCard) : Except PyExcKind Json := do
  let t ← get_ergani_workcard_movement_type w.work_card_movement_type
  Except.ok (Json.obj [
    ("f_afm", Json.str w.employee_tax_identification_number),
    ("f_eponymo", Json.str w.employee_last_name),
    ("f_onoma", Json.str w.employee_first_name),
    ("f_type", Json.str t),
    ("f_reference_date", Json.str w.work_card_submission_date.isoformat),
    ("f_date", Json.str (format_datetime (some w.work_card_movement_datetime))),
    ("f_aitiologia",
      optJson (get_ergani_late_declaration_justification
        w.late_declaration_justification))])

/-- Embeds `Overtime` (`ergani/models.py`). -/
structure Overtime where
  employee_tax_identification_number : String
  employee_social_security_number : String
  employee_last_name : String
  employee_first_name : String
  overtime_date : PyDate
  overtime_start_time : PyTime
  overtime_end_time : PyTime
  overtime_cancellation : Bool
  employee_profession_code : String
  overtime_justification : String
  weekly_workdays_number : Int
  asee_approval : Option String := some ""

/-- Embeds `Overtime.serialize` (`ergani/models.py`); the justification
translation is a raising dict subscript, so serialization is fallible. -/
def Overtime.serialize (o : Overtime) : Except PyExcKind Json := do
  let reason ← get_ergani_overtime_justification o.overtime_justification
  Except.ok (Json.obj [
    ("f_afm", Json.str o.employee_tax_identification_number),
    ("f_amka", Json.str o.employee_social_security_number),
    ("f_eponymo", Json.str o.employee_last_name),
    ("f_onoma", Json.str o.employee_first_name),
    ("f_date", Json.str (format_date (some o.overtime_date))),
    ("f_from", Json.str (format_time (some o.overtime_start_time))),
    ("f_to", Json.str (format_time (some o.overtime_end_time))),
    ("f_cancellation",
      Json.str (get_ergani_overtime_cancellation o.overtime_cancellation)),
    ("f_step", Json.str o.employee_profession_code),
    ("f_reason", Json.str reason),
    ("f_weekdates", Json.num o.weekly_workdays_number),
    ("f_asee", optJson o.asee_approval)])

/-- List serialization in the `Except` monad, mirroring a Python list
comprehension over a fallible element serializer: elements are processed
front to back and the first raised exception propagates. -/
def mapMExcept (f : α → Except ε β) : List α → Except ε (List β)
  | [] => Except.ok []
  | x :: xs =>
    match f x with
    | Except.error e => Except.error e
    | Except.ok y =>
      match mapMExcept f xs with
      | Except.error e => Except.error e
      | Except.ok ys => Except.ok (y :: ys)

/-- Embeds `CompanyOvertime` (`ergani/models.py`). -/
structure CompanyOvertime where
  business_branch_number : Int
  sepe_service_code : String
  business_primary_activity_code : String
  business_branch_activity_code : String
  kallikratis_municipal_code : String
  legal_representative_tax_identification_number : String
  employee_overtimes : List Overtime := []
  related_protocol_id : Option String := some ""
  related_protocol_date : Option PyDate := none
  employer_organization : Option String := some ""
  business_secondary_activity_code_1 : Option String := some ""
  business_secondary_activity_code_2 : Option String := some ""
  business_secondary_activity_code_3 : Option String := some ""
  business_secondary_activity_code_4 : Option String := some ""
  comments : Option String := some ""

/-- Embeds `CompanyOvertime.serialize` (`ergani/models.py`): the scalar
fields plus `Ergazomenoi.OvertimeErgazomenosDate`, the list of the
serialized `employee_overtimes` in input order. -/
def CompanyOvertime.serialize (c : CompanyOvertime) : Except PyExcKind Json := do
  let entries ← mapMExcept Overtime.serialize c.employee_overtimes
  Except.ok (Json.obj [
    ("f_aa_pararthmatos", Json.num c.business_branch_number),
    ("f_rel_protocol", optJson c.related_protocol_id),
    ("f_rel_date", Json.str (format_date c.related_protocol_date)),
    ("f_ypiresia_sepe", Json.str c.sepe_service_code),
    ("f_ergodotikh_organwsh", optJson c.employer_organization),
    ("f_kad_kyria", Json.str c.business_primary_activity_code),
    ("f_kad_deyt_1", optJson c.business_secondary_activity_code_1),
    ("f_kad_deyt_2", optJson c.business_secondary_activity_code_2),
    ("f_kad_deyt_3", optJson c.business_secondary_activity_code_3),
    ("f_kad_deyt_4", optJson c.business_secondary_activity_code_4),
    ("f_kad_pararthmatos", Json.str c.business_branch_activity_code),
    ("f_kallikratis_pararthmatos", Json.str c.kallikratis_municipal_code),
    ("f_comments", optJson c.comments),
    ("f_afm_proswpoy",
      Json.str c.legal_representative_tax_identification_number),
    ("Ergazomenoi", Json.obj [
      ("OvertimeErgazomenosDate", Json.arr entries)])])

/-- Python dict assignment `d[k] = v`: replace the first binding of `k`, or
append a new binding. -/
def dictSet (d : List (String × String)) (k v : String) :
    List (String × String) :=
  match d with
  | [] => [(k, v)]
  | (k', v') :: rest =>
    if k' == k then (k, v) :: rest else (k', v') :: dictSet rest k v

/-- Outcome of the network call in `ErganiAuthentication._authenticate`:
either a `Response` arrived, or `requests.post` raised a
`RequestException` (connection error and the like). -/
inductive NetOutcome where
  | success (response : Response)
  | netError

/-- Result of `ErganiAuthentication._authenticate` (`ergani/auth.py`):
the returned token, a raised `AuthenticationError` with message and
response, a raised bare `AuthenticationError()`, or a propagated plain
Python exception. -/
inductive AuthResult where
  | token (t : Option Json)
  | authError (message : Json) (response : Response)
  | bareAuthError
  | pyExc (e : PyExcKind)

/-- Embeds `ErganiAuthentication._authenticate` (`ergani/auth.py`) as a
function of the network outcome.  Control flow of the source, in order:
`requests.post` raising a `RequestException` is caught and re-raised as a
bare `AuthenticationError()`; the debug line `print(response.json())` runs
next, so a body that is not valid JSON raises `JSONDecodeError` — a
`RequestException` subclass in `requests` — which the same handler turns
into a bare `AuthenticationError()` before the status code is ever
inspected; then a non-200 status raises `AuthenticationError` with the
extracted message (an `AuthenticationError` or `TypeError` escapes the
`except RequestException` clause); finally `response.json().get("accessToken")`
needs a JSON object (`.get` on any other decoded value raises
`AttributeError`) and yields the token, `None` when the key is absent. -/
def _authenticate (outcome : NetOutcome) : AuthResult :=
  match outcome with
  | NetOutcome.netError => AuthResult.bareAuthError
  | NetOutcome.success r =>
    match r.jsonBody with
    | none => AuthResult.bareAuthError
    | some decoded =>
      if r.status_code ≠ 200 then
        match extract_error_message r with
        | Except.ok m => AuthResult.authError m r
        | Except.error e => AuthResult.pyExc e
      else
        match decoded with
        | Json.obj kvs => AuthResult.token (jsonGet kvs "accessToken")
        | _ => AuthResult.pyExc PyExcKind.attributeError

/-- Embeds `ErganiAuthentication.__call__` (`ergani/auth.py`): the
authenticator decorates a prepared request by setting its `Authorization`
header to `Bearer <access_token>`. -/
def authDecorate (access_token : String)
    (headers : List (String × String)) : List (String × String) :=
  dictSet headers "Authorization" ("Bearer " ++ access_token)

/-- Default `base_url` of `ErganiClient` and `ErganiAuthentication`. -/
def default_base_url : String :=
  "https://trialeservices.yeka.gr/WebServicesAPI/api"

/-- The `endpoint` local of `ErganiAuthentication._authenticate`. -/
def authentication_endpoint : String := "/Authentication"

/-- URL of the authentication request (`ergani/auth.py`):
`f"{self.base_url}{endpoint}"` — plain concatenation, no added slash. -/
def auth_url (base_url : String) : String :=
  base_url ++ authentication_endpoint

/-- URL built by `ErganiClient._request` (`ergani/client.py`):
`f"{self.base_url}/{endpoint}"` — a slash is inserted between the base URL
and the endpoint. -/
def request_url (base_url endpoint : String) : String :=
  base_url ++ "/" ++ endpoint

/-- Result of `ErganiClient._handle_response` (`ergani/client.py`): the
response returned unchanged, `None` for 204, a raised
`AuthenticationError`/`APIError` with its constructor arguments, or a
propagated plain Python exception from message extraction. -/
inductive HandleResult where
  | ok (response : Response)
  | noContent
  | authError (message : Json) (response : Response)
  | apiError (message : Json) (response : Response) (payload : Option Json)
  | pyExc (e : PyExcKind)

/-- Embeds `ErganiClient._handle_response` (`ergani/client.py`): 401 raises
`AuthenticationError(message, response)`; 204 returns `None`;
`response.raise_for_status()` raises exactly for status codes 400–599, in
which case `APIError(message, response, payload)` is raised; any other
status returns the response unchanged. -/
def _handle_response (response : Response) (payload : Option Json) :
    HandleResult :=
  if response.status_code = 401 then
    match extract_error_message response with
    | Except.ok m => HandleResult.authError m response
    | Except.error e => HandleResult.pyExc e
  else if response.status_code = 204 then
    HandleResult.noContent
  else if 400 ≤ response.status_code ∧ response.status_code < 600 then
    match extract_error_message response with
    | Except.ok m => HandleResult.apiError m response payload
    | Except.error e => HandleResult.pyExc e
  else
    HandleResult.ok response

/-- An HTTP submission issued through `ErganiClient._request`:
the method, the endpoint passed to `_request`, and the JSON payload. -/
structure SubmitCall where
  method : String
  endpoint : String
  payload : Json
deriving Repr

/-- The `endpoint` local of `ErganiClient.submit_work_card`. -/
def work_card_endpoint : String := "/Documents/WRKCardSE"

/-- The `endpoint` local of `ErganiClient.submit_overtime`. -/
def overtime_endpoint : String := "/Documents/OvTime"

/-- The `endpoint` local of `ErganiClient.submit_daily_schedule`. -/
def daily_schedule_endpoint : String := "/Documents/WTODaily"

/-- Parameters of `ErganiClient.submit_work_card` (`ergani/client.py`); all
are strings in the source (the optional ones default to `""`). -/
structure WorkCardArgs where
  employer_tax_identification_number : String
  business_branch_number : String
  employee_tax_identification_number : String
  employee_last_name : String
  employee_first_name : String
  work_card_movement_type : String
  work_card_submission_date : String
  work_card_movement_datetime : String
  comments : String := ""
  late_declaration_justification_code : String := ""

/-- Embeds `ErganiClient.submit_work_card` (`ergani/client.py`): the
`request_payload` dict literal, POSTed to the work-card endpoint. -/
def submit_work_card (a : WorkCardArgs) : SubmitCall :=
  { method := "POST"
    endpoint := work_card_endpoint
    payload := Json.obj [
      ("Cards", Json.obj [
        ("Card", Json.arr [
          Json.obj [
            ("f_afm_ergodoti", Json.str a.employer_tax_identification_number),
            ("f_aa", Json.str a.business_branch_number),
            ("f_comments", Json.str a.comments),
            ("Details", Json.obj [
              ("CardDetails", Json.arr [
                Json.obj [
                  ("f_afm", Json.str a.employee_tax_identification_number),
                  ("f_eponymo", Json.str a.employee_last_name),
                  ("f_onoma", Json.str a.employee_first_name),
                  ("f_type", Json.str a.work_card_movement_type),
                  ("f_reference_date", Json.str a.work_card_submission_date),
                  ("f_date", Json.str a.work_card_movement_datetime),
                  ("f_aitiologia",
                    Json.str a.late_declaration_justification_code)]])])]])])] }

/-- Parameters of `ErganiClient.submit_overtime` (`ergani/client.py`); all
are strings in the source (the optional ones default to `""`). -/
structure OvertimeArgs where
  business_branch_number : String
  sepe_service_code : String
  business_primary_activity_code : String
  business_branch_activity_code : String
  kallikratis_municipal_code : String
  legal_representative_tax_identification_number : String
  employee_tax_identification_number : String
  employee_social_security_number : String
  employee_last_name : String
  employee_first_name : String
  overtime_date : String
  overtime_start_time : String
  overtime_end_time : String
  overtime_cancellation : String
  employee_profession_code : String
  overtime_justification_code : String
  weekly_workdays_number : String
  related_protocol_number : String := ""
  related_protocol_date : String := ""
  employer_organization : String := ""
  business_secondary_activity_code_1 : String := ""
  business_secondary_activity_code_2 : String := ""
  business_secondary_activity_code_3 : String := ""
  business_secondary_activity_code_4 : String := ""
  comments : String := ""
  asee_approval : String := ""

/-- Embeds `ErganiClient.submit_overtime` (`ergani/client.py`): the
`request_payload` dict literal, POSTed to the overtime endpoint. -/
def submit_overtime (a : OvertimeArgs) : SubmitCall :=
  { method := "POST"
    endpoint := overtime_endpoint
    payload := Json.obj [
      ("Overtimes", Json.obj [
        ("Overtime", Json.arr [
          Json.obj [
            ("f_aa_pararthmatos", Json.str a.business_branch_number),
            ("f_rel_protocol", Json.str a.related_protocol_number),
            ("f_rel_date", Json.str a.related_protocol_date),
            ("f_ypiresia_sepe", Json.str a.sepe_service_code),
            ("f_ergodotikh_organwsh", Json.str a.employer_organization),
            ("f_kad_kyria", Json.str a.business_primary_activity_code),
            ("f_kad_deyt_1", Json.str a.business_secondary_activity_code_1),
            ("f_kad_deyt_2", Json.str a.business_secondary_activity_code_2),
            ("f_kad_deyt_3", Json.str a.business_secondary_activity_code_3),
            ("f_kad_deyt_4", Json.str a.business_secondary_activity_code_4),
            ("f_kad_pararthmatos",
              Json.str a.business_branch_activity_code),
            ("f_kallikratis_pararthmatos",
              Json.str a.kallikratis_municipal_code),
            ("f_comments", Json.str a.comments),
            ("f_afm_proswpoy",
              Json.str a.legal_representative_tax_identification_number),
            ("Ergazomenoi", Json.obj [
              ("OvertimeErgazomenosDate", Json.arr [
                Json.obj [
                  ("f_afm", Json.str a.employee_tax_identification_number),
                  ("f_amka", Json.str a.employee_social_security_number),
                  ("f_eponymo", Json.str a.employee_last_name),
                  ("f_onoma", Json.str a.employee_first_name),
                  ("f_date", Json.str a.overtime_date),
                  ("f_from", Json.str a.overtime_start_time),
                  ("f_to", Json.str a.overtime_end_time),
                  ("f_cancellation", Json.str a.overtime_cancellation),
                  ("f_step", Json.str a.employee_profession_code),
                  ("f_reason", Json.str a.overtime_justification_code),
                  ("f_weekdates", Json.str a.weekly_workdays_number),
                  ("f_asee", Json.str a.asee_approval)]])])]])])] }

/-- Parameters of `ErganiClient.submit_daily_schedule` (`ergani/client.py`);
all are strings in the source (the optional ones default to `""`). -/
structure DailyScheduleArgs where
  business_branch_number : String
  employee_tax_identification_number : String
  employee_last_name : String
  employee_first_name : String
  schedule_date : String
  work_type : String
  workday_start_time : String
  workday_end_time : String
  related_protocol_number : String := ""
  related_protocol_date : String := ""
  comments : String := ""
  schedule_start_date : String := ""
  schedule_end_date : String := ""

/-- Embeds `ErganiClient.submit_daily_schedule` (`ergani/client.py`): the
`request_payload` dict literal, POSTed to the daily-schedule endpoint. -/
def submit_daily_schedule (a : DailyScheduleArgs) : SubmitCall :=
  { method := "POST"
    endpoint := daily_schedule_endpoint
    payload := Json.obj [
      ("WTOS", Json.obj [
        ("WTO", Json.arr [
          Json.obj [
            ("f_aa_pararthmatos", Json.str a.business_branch_number),
            ("f_rel_protocol", Json.str a.related_protocol_number),
            ("f_rel_date", Json.str a.related_protocol_date),
            ("f_comments", Json.str a.comments),
            ("f_from_date", Json.str a.schedule_start_date),
            ("f_to_date", Json.str a.schedule_end_date),
            ("Ergazomenoi", Json.obj [
              ("ErgazomenoiWTO", Json.arr [
                Json.obj [
                  ("f_afm", Json.str a.employee_tax_identification_number),
                  ("f_eponymo", Json.str a.employee_last_name),
                  ("f_onoma", Json.str a.employee_first_name),
                  ("f_date", Json.str a.schedule_date),
                  ("ErgazomenosAnalytics", Json.obj [
                    ("ErgazomenosWTOAnalytics", Json.arr [
                      Json.obj [
                        ("f_type", Json.str a.work_type),
                        ("f_from", Json.str a.workday_start_time),
                        ("f_to", Json.str a.workday_end_time)]])])]])])]])])] }

/-- The public submission methods defined on `ErganiClient`
(`ergani/client.py`), paired with the endpoint each one POSTs to.  These
are the only `submit_*` methods the class defines. -/
def clientSubmissionOperations : List (String × String) :=
  [("submit_work_card", work_card_endpoint),
   ("submit_overtime", overtime_endpoint),
   ("submit_daily_schedule", daily_schedule_endpoint)]

/-- Field of a serialized JSON object, for inspecting `serialize()` results:
`none` when serialization failed or did not produce an object with the key. -/
def lookupField (r : Except PyExcKind Json) (k : String) : Option Json :=
  match r with
  | Except.ok (Json.obj kvs) => jsonGet kvs k
  | _ => none

/-- The single element of the `Card` batch list built by
`ErganiClient.submit_work_card`. -/
def workCardBatchElement (a : WorkCardArgs) : Json :=
  Json.obj [
    ("f_afm_ergodoti", Json.str a.employer_tax_identification_number),
    ("f_aa", Json.str a.business_branch_number),
    ("f_comments", Json.str a.comments),
    ("Details", Json.obj [
      ("CardDetails", Json.arr [
        Json.obj [
          ("f_afm", Json.str a.employee_tax_identification_number),
          ("f_eponymo", Json.str a.employee_last_name),
          ("f_onoma", Json.str a.employee_first_name),
          ("f_type", Json.str a.work_card_movement_type),
          ("f_reference_date", Json.str a.work_card_submission_date),
          ("f_date", Json.str a.work_card_movement_datetime),
          ("f_aitiologia", Json.str a.late_declaration_justification_code)]])])]

/-- The single element of the `Overtime` batch list built by
`ErganiClient.submit_overtime`. -/
def overtimeBatchElement (a : OvertimeArgs) : Json :=
  Json.obj [
    ("f_aa_pararthmatos", Json.str a.business_branch_number),
    ("f_rel_protocol", Json.str a.related_protocol_number),
    ("f_rel_date", Json.str a.related_protocol_date),
    ("f_ypiresia_sepe", Json.str a.sepe_service_code),
    ("f_ergodotikh_organwsh", Json.str a.employer_organization),
    ("f_kad_kyria", Json.str a.business_primary_activity_code),
    ("f_kad_deyt_1", Json.str a.business_secondary_activity_code_1),
    ("f_kad_deyt_2", Json.str a.business_secondary_activity_code_2),
    ("f_kad_deyt_3", Json.str a.business_secondary_activity_code_3),
    ("f_kad_deyt_4", Json.str a.business_secondary_activity_code_4),
    ("f_kad_pararthmatos", Json.str a.business_branch_activity_code),
    ("f_kallikratis_pararthmatos", Json.str a.kallikratis_municipal_code),
    ("f_comments", Json.str a.comments),
    ("f_afm_proswpoy",
      Json.str a.legal_representative_tax_identification_number),
    ("Ergazomenoi", Json.obj [
      ("OvertimeErgazomenosDate", Json.arr [
        Json.obj [
          ("f_afm", Json.str a.employee_tax_identification_number),
          ("f_amka", Json.str a.employee_social_security_number),
          ("f_eponymo", Json.str a.employee_last_name),
          ("f_onoma", Json.str a.employee_first_name),
          ("f_date", Json.str a.overtime_date),
          ("f_from", Json.str a.overtime_start_time),
          ("f_to", Json.str a.overtime_end_time),
          ("f_cancellation", Json.str a.overtime_cancellation),
          ("f_step", Json.str a.employee_profession_code),
          ("f_reason", Json.str a.overtime_justification_code),
          ("f_weekdates", Json.str a.weekly_workdays_number),
          ("f_asee", Json.str a.asee_approval)]])])]

/-- The single element of the `WTO` batch list built by
`ErganiClient.submit_daily_schedule`. -/
def dailyScheduleBatchElement (a : DailyScheduleArgs) : Json :=
  Json.obj [
    ("f_aa_pararthmatos", Json.str a.business_branch_number),
    ("f_rel_protocol", Json.str a.related_protocol_number),
    ("f_rel_date", Json.str a.related_protocol_date),
    ("f_comments", Json.str a.comments),
    ("f_from_date", Json.str a.schedule_start_date),
    ("f_to_date", Json.str a.schedule_end_date),
    ("Ergazomenoi", Json.obj [
      ("ErgazomenoiWTO", Json.arr [
        Json.obj [
          ("f_afm", Json.str a.employee_tax_identification_number),
          ("f_eponymo", Json.str a.employee_last_name),
          ("f_onoma", Json.str a.employee_first_name),
          ("f_date", Json.str a.schedule_date),
          ("ErgazomenosAnalytics", Json.obj [
            ("ErgazomenosWTOAnalytics", Json.arr [
              Json.obj [
                ("f_type", Json.str a.work_type),
                ("f_from", Json.str a.workday_start_time),
                ("f_to", Json.str a.workday_end_time)]])])]])])]

/-- A concrete `WorkCard` used to exhibit the `f_reference_date` format:
submission date March 5, 2024, movement type `ARRIVAL`. -/
def sampleWorkCard : WorkCard :=
  { employee_tax_identification_number := "123456789"
    employee_last_name := "Doe"
    employee_first_name := "Jane"
    work_card_movement_type := "ARRIVAL"
    work_card_submission_date := ⟨2024, 3, 5⟩
    work_card_movement_datetime := ⟨2024, 3, 5, 9, 0, 0, 0⟩
    late_declaration_justification := none }

/-- A concrete `Overtime` entry with the mapped justification
`SUPPLEMENTARY_TASKS`. -/
def sampleOvertime : Overtime :=
  { employee_tax_identification_number := "123456789"
    employee_social_security_number := "01011590000"
    employee_last_name := "Doe"
    employee_first_name := "Jane"
    overtime_date := ⟨2024, 3, 15⟩
    overtime_start_time := ⟨18, 0⟩
    overtime_end_time := ⟨19, 30⟩
    overtime_cancellation := false
    employee_profession_code := "1234"
    overtime_justification := "SUPPLEMENTARY_TASKS"
    weekly_workdays_number := 5 }

/-- A one-entry `CompanyOvertime` batch around `sampleOvertime`. -/
def sampleCompanyOvertime : CompanyOvertime :=
  { business_branch_number := 0
    sepe_service_code := "100"
    business_primary_activity_code := "6201"
    business_branch_activity_code := "6201"
    kallikratis_municipal_code := "9101"
    legal_representative_tax_identification_number := "987654321"
    employee_overtimes := [sampleOvertime] }

/-- The JSON object `sampleOvertime.serialize()` produces. -/
def sampleOvertimeSerialized : Json :=
  (Overtime.serialize sampleOvertime).toOption.getD Json.null

theorem strData_append (s t : String) : (s ++ t).data = s.data ++ t.data := by
  cases s
  cases t
  rfl

theorem listHas_append (pat pre s : List Char) (h : listHas pat s = true) :
    listHas pat (pre ++ s) = true := by
  induction pre with
  | nil => simpa using h
  | cons c cs ih =>
    simp only [List.cons_append, listHas, Bool.or_eq_true]
    exact Or.inr ih

theorem dictGet_dictSet (d : List (String × String)) (k v : String) :
    dictGet (dictSet d k v) k = some v := by
  induction d with
  | nil => simp [dictSet, dictGet]
  | cons p rest ih =>
    obtain ⟨k', v'⟩ := p
    rcases eq_or_ne k' k with hk | hk
    · subst hk
      simp [dictSet, dictGet]
    · simp [dictSet, dictGet, hk, ih]

theorem mapMExcept_ok {α β ε : Type} (f : α → Except ε β) :
    ∀ (xs : List α) (ys : List β), mapMExcept f xs = Except.ok ys →
      ys.length = xs.length ∧
      ∀ i (hx : i < xs.length) (hy : i < ys.length),
        f (xs.get ⟨i, hx⟩) = Except.ok (ys.get ⟨i, hy⟩) := by
  intro xs
  induction xs with
  | nil =>
    intro ys h
    simp only [mapMExcept, Except.ok.injEq] at h
    subst h
    refine ⟨rfl, ?_⟩
    intro i hx hy
    exact absurd hx (by simp)
  | cons x xs ih =>
    intro ys h
    simp only [mapMExcept] at h
    cases hfx : f x with
    | error e => simp [hfx] at h
    | ok y =>
      cases hrest : mapMExcept f xs with
      | error e => simp [hfx, hrest] at h
      | ok ys' =>
        simp only [hfx, hrest, Except.ok.injEq] at h
        subst h
        obtain ⟨hlen, hget⟩ := ih ys' hrest
        refine ⟨by simp [hlen], ?_⟩
        intro i hx hy
        cases i with
        | zero => simpa using hfx
        | succ n =>
          simpa using hget n (by simpa using hx) (by simpa using hy)

/-- C6: for every known enum input, each of the four enum translators
returns the exact documented wire token: ARRIVAL→"0", DEPARTURE→"1";
WORK_FROM_OFFICE→"ΕΡΓ", WORK_FROM_HOME→"ΤΗΛ", REST_DAY→"ΑΝ", ABSENT→"ΜΕ";
the nine overtime justifications map to "001".."009"; and the three
late-declaration justifications map to "001".."003". -/
theorem spec_c6_enum_translator_tokens :
    get_ergani_workcard_movement_type "ARRIVAL" = Except.ok "0" ∧
    get_ergani_workcard_movement_type "DEPARTURE" = Except.ok "1" ∧
    get_ergani_work_type "WORK_FROM_OFFICE" = Except.ok "ΕΡΓ" ∧
    get_ergani_work_type "WORK_FROM_HOME" = Except.ok "ΤΗΛ" ∧
    get_ergani_work_type "REST_DAY" = Except.ok "ΑΝ" ∧
    get_ergani_work_type "ABSENT" = Except.ok "ΜΕ" ∧
    get_ergani_overtime_justification "ACCIDENT_PREVENTION_OR_DAMAGE_RESTORATION"
      = Except.ok "001" ∧
    get_ergani_overtime_justification "URGENT_SEASONAL_TASKS" = Except.ok "002" ∧
    get_ergani_overtime_justification "EXCEPTIONAL_WORKLOAD" = Except.ok "003" ∧
    get_ergani_overtime_justification "SUPPLEMENTARY_TASKS" = Except.ok "004" ∧
    get_ergani_overtime_justification "LOST_HOURS_SUDDEN_CAUSES"
      = Except.ok "005" ∧
    get_ergani_overtime_justification "LOST_HOURS_OFFICIAL_HOLIDAYS"
      = Except.ok "006" ∧
    get_ergani_overtime_justification "LOST_HOURS_WEATHER_CONDITIONS"
      = Except.ok "007" ∧
    get_ergani_overtime_justification "EMERGENCY_CLOSURE_DAY"
      = Except.ok "008" ∧
    get_ergani_overtime_justification "NON_WORKDAY_TASKS" = Except.ok "009" ∧
    get_ergani_late_declaration_justification (some "POWER_OUTAGE")
      = some "001" ∧
    get_ergani_late_declaration_justification (some "EMPLOYER_SYSTEMS_UNAVAILABLE")
      = some "002" ∧
    get_ergani_late_declaration_justification (some "ERGANI_SYSTEMS_UNAVAILABLE")
      = some "003" :=
  ⟨rfl, rfl, rfl, rfl, rfl, rfl, rfl, rfl, rfl, rfl, rfl, rfl, rfl, rfl, rfl,
   rfl, rfl, rfl⟩

/-- C5 counterexample: an unmapped movement type makes the translator raise
`KeyError`, not the `ValidationError` the claim names; indeed the SDK's
exception module defines no `ValidationError` class at all. -/
theorem spec_c5_counterexample :
    get_ergani_workcard_movement_type "UNKNOWN"
      = Except.error PyExcKind.keyError ∧
    PyExcKind.keyError ≠ PyExcKind.validationError ∧
    "ValidationError" ∉ exception_classes :=
  ⟨rfl, by decide, by decide⟩

/-- C5 (amended): for every input outside its mapping table, the
movement-type translator raises `KeyError` (the SDK defines no
`ValidationError`), and the overtime-justification and work-type
translators do the same; the late-declaration translator returns an
unmapped input unchanged. -/
theorem spec_c5_unmapped_translator_behavior (s : String) :
    (dictGet movement_type_mapping s = none →
      get_ergani_workcard_movement_type s = Except.error PyExcKind.keyError) ∧
    (dictGet overtime_justification_mapping s = none →
      get_ergani_overtime_justification s = Except.error PyExcKind.keyError) ∧
    (dictGet work_type_mapping s = none →
      get_ergani_work_type s = Except.error PyExcKind.keyError) ∧
    (dictGet late_declaration_justification_mapping s = none →
      get_ergani_late_declaration_justification (some s) = some s) := by
  refine ⟨fun h => ?_, fun h => ?_, fun h => ?_, fun h => ?_⟩ <;>
    simp [get_ergani_workcard_movement_type, get_ergani_overtime_justification,
      get_ergani_work_type, get_ergani_late_declaration_justification,
      dictGetItem, h]

/-- C5 witness: the string "UNMAPPED" lies outside all four mapping tables;
the three strict translators raise `KeyError` on it and the
late-declaration translator passes it through. -/
theorem spec_c5_witness :
    dictGet movement_type_mapping "UNMAPPED" = none ∧
    dictGet overtime_justification_mapping "UNMAPPED" = none ∧
    dictGet work_type_mapping "UNMAPPED" = none ∧
    dictGet late_declaration_justification_mapping "UNMAPPED" = none ∧
    get_ergani_workcard_movement_type "UNMAPPED"
      = Except.error PyExcKind.keyError ∧
    get_ergani_overtime_justification "UNMAPPED"
      = Except.error PyExcKind.keyError ∧
    get_ergani_work_type "UNMAPPED" = Except.error PyExcKind.keyError ∧
    get_ergani_late_declaration_justification (some "UNMAPPED")
      = some "UNMAPPED" :=
  ⟨rfl, rfl, rfl, rfl,
   (spec_c5_unmapped_translator_behavior "UNMAPPED").1 rfl,
   (spec_c5_unmapped_translator_behavior "UNMAPPED").2.1 rfl,
   (spec_c5_unmapped_translator_behavior "UNMAPPED").2.2.1 rfl,
   (spec_c5_unmapped_translator_behavior "UNMAPPED").2.2.2 rfl⟩

/-- C8: for every date, `get_day_of_week` equals the Monday-based weekday
index plus one, modulo seven; the result is always below seven, it is zero
exactly on Sundays (Python weekday 6) and six exactly on Saturdays (Python
weekday 5); concretely, Sunday 2024-03-10 gives 0 and Saturday 2024-03-09
gives 6. -/
theorem spec_c8_day_of_week (d : PyDate) :
    get_day_of_week (some d) = some ((d.weekday + 1) % 7) ∧
    (d.weekday + 1) % 7 < 7 ∧
    (d.weekday = 6 ↔ (d.weekday + 1) % 7 = 0) ∧
    (d.weekday = 5 ↔ (d.weekday + 1) % 7 = 6) ∧
    get_day_of_week (some ⟨2024, 3, 10⟩) = some 0 ∧
    get_day_of_week (some ⟨2024, 3, 9⟩) = some 6 := by
  have hw : d.weekday < 7 := by
    unfold PyDate.weekday
    exact Nat.mod_lt _ (by norm_num)
  refine ⟨rfl, by omega, by omega, by omega, by decide, by decide⟩

/-- C4 counterexample: serializing a work card whose submission date is
March 5, 2024 puts `"2024-03-05"` (ISO form) in `f_reference_date`, while
the Field Translator's date rule would produce `"05/03/2024"`. -/
theorem spec_c4_counterexample :
    lookupField (WorkCard.serialize sampleWorkCard) "f_reference_date" =
      some (Json.str "2024-03-05") ∧
    format_date (some ⟨2024, 3, 5⟩) = "05/03/2024" ∧
    ("2024-03-05" : String) ≠ "05/03/2024" :=
  ⟨rfl, rfl, by decide⟩

/-- C4 (amended): for every work card whose movement type translates, the
`f_reference_date` field of `serialize()` is `date.isoformat()` of the
submission date, i.e. the "YYYY-MM-DD" form, not the "DD/MM/YYYY" rule
used by the other document models' date fields. -/
theorem spec_c4_reference_date_isoformat (w : WorkCard) (t : String)
    (h : get_ergani_workcard_movement_type w.work_card_movement_type
      = Except.ok t) :
    lookupField (WorkCard.serialize w) "f_reference_date" =
      some (Json.str w.work_card_submission_date.isoformat) ∧
    w.work_card_submission_date.isoformat =
      padNum 4 w.work_card_submission_date.year ++ "-" ++
      padNum 2 w.work_card_submission_date.month ++ "-" ++
      padNum 2 w.work_card_submission_date.day := by
  constructor
  · simp [WorkCard.serialize, h, lookupField, jsonGet, Bind.bind, Except.bind]
  · rfl

/-- C4 witness: the sample work card's movement type translates, and its
`f_reference_date` comes out in ISO form. -/
theorem spec_c4_witness :
    get_ergani_workcard_movement_type sampleWorkCard.work_card_movement_type
      = Except.ok "0" ∧
    lookupField (WorkCard.serialize sampleWorkCard) "f_reference_date" =
      some (Json.str sampleWorkCard.work_card_submission_date.isoformat) :=
  ⟨rfl, (spec_c4_reference_date_isoformat sampleWorkCard "0" rfl).1⟩

/-- C9: for every `CompanyOvertime` batch whose entries all serialize, the
serialized batch nests, under "Ergazomenoi" → "OvertimeErgazomenosDate",
exactly the sequence of `serialize()` outputs of the entries, in input
order (same length, and the i-th element is the i-th entry's output). -/
theorem spec_c9_company_overtime_nesting (c : CompanyOvertime)
    (entries : List Json)
    (h : mapMExcept Overtime.serialize c.employee_overtimes
      = Except.ok entries) :
    lookupField (CompanyOvertime.serialize c) "Ergazomenoi" =
      some (Json.obj [("OvertimeErgazomenosDate", Json.arr entries)]) ∧
    entries.length = c.employee_overtimes.length ∧
    ∀ i (hx : i < c.employee_overtimes.length) (hy : i < entries.length),
      Overtime.serialize (c.employee_overtimes.get ⟨i, hx⟩) =
        Except.ok (entries.get ⟨i, hy⟩) := by
  obtain ⟨hlen, hget⟩ :=
    mapMExcept_ok Overtime.serialize c.employee_overtimes entries h
  refine ⟨?_, hlen, hget⟩
  simp [CompanyOvertime.serialize, h, lookupField, jsonGet, Bind.bind,
    Except.bind]

/-- C9 witness: the one-entry sample batch serializes with
"Ergazomenoi" → "OvertimeErgazomenosDate" a one-element sequence whose
element is exactly the sample entry's `serialize()` output. -/
theorem spec_c9_witness :
    mapMExcept Overtime.serialize sampleCompanyOvertime.employee_overtimes =
      Except.ok [sampleOvertimeSerialized] ∧
    Overtime.serialize sampleOvertime = Except.ok sampleOvertimeSerialized ∧
    lookupField (CompanyOvertime.serialize sampleCompanyOvertime)
        "Ergazomenoi" =
      some (Json.obj [("OvertimeErgazomenosDate",
        Json.arr [sampleOvertimeSerialized])]) :=
  ⟨rfl, rfl,
   (spec_c9_company_overtime_nesting sampleCompanyOvertime
     [sampleOvertimeSerialized] rfl).1⟩

/-- C2: for every HTTP response of a submission call from which a message
can be extracted, `_handle_response` raises
`AuthenticationError(message, response)` on 401, returns `None` on 204,
raises `APIError(message, response, payload)` on every other status in
400–599, and returns the response unchanged on every remaining status. -/
theorem spec_c2_handle_response (r : Response) (payload : Option Json)
    (m : Json) (hext : extract_error_message r = Except.ok m) :
    (r.status_code = 401 →
      _handle_response r payload = HandleResult.authError m r) ∧
    (r.status_code = 204 →
      _handle_response r payload = HandleResult.noContent) ∧
    (r.status_code ≠ 401 → r.status_code ≠ 204 →
      400 ≤ r.status_code → r.status_code < 600 →
      _handle_response r payload = HandleResult.apiError m r payload) ∧
    (r.status_code ≠ 401 → r.status_code ≠ 204 →
      ¬(400 ≤ r.status_code ∧ r.status_code < 600) →
      _handle_response r payload = HandleResult.ok r) := by
  refine ⟨fun h401 => ?_, fun h204 => ?_,
    fun h401 h204 hlo hhi => ?_, fun h401 h204 hrange => ?_⟩
  · simp [_handle_response, h401, hext]
  · simp [_handle_response, h204]
  · simp [_handle_response, h401, h204, hext, hlo, hhi]
  · simp [_handle_response, h401, h204, hrange]

/-- C2 witness: concrete responses with statuses 401, 204, 500 and 200 (all
with empty extractable message) hit the four branches. -/
theorem spec_c2_witness :
    extract_error_message ⟨401, "", "", none⟩ = Except.ok (Json.str "") ∧
    _handle_response ⟨401, "", "", none⟩ none
      = HandleResult.authError (Json.str "") ⟨401, "", "", none⟩ ∧
    _handle_response ⟨204, "", "", none⟩ none = HandleResult.noContent ∧
    _handle_response ⟨500, "", "", none⟩ none
      = HandleResult.apiError (Json.str "") ⟨500, "", "", none⟩ none ∧
    _handle_response ⟨200, "", "", none⟩ none
      = HandleResult.ok ⟨200, "", "", none⟩ :=
  ⟨rfl,
   (spec_c2_handle_response ⟨401, "", "", none⟩ none (Json.str "") rfl).1 rfl,
   (spec_c2_handle_response ⟨204, "", "", none⟩ none (Json.str "") rfl).2.1 rfl,
   (spec_c2_handle_response ⟨500, "", "", none⟩ none (Json.str "") rfl).2.2.1
     (by decide) (by decide) (by decide) (by decide),
   (spec_c2_handle_response ⟨200, "", "", none⟩ none (Json.str "") rfl).2.2.2
     (by decide) (by decide) (by decide)⟩

/-- C7 counterexample: an error response whose body is the JSON string
`"msg"` (content type `application/json`) makes the helper raise
`TypeError` — Python's `"msg" in response_data` is a substring test on a
string body and the following subscript fails — instead of returning the
non-empty decoded body as the claim states. -/
theorem spec_c7_counterexample :
    extract_error_message
        ⟨500, "application/json", "\"msg\"", some (Json.str "msg")⟩
      = Except.error PyExcKind.typeError ∧
    extract_error_message
        ⟨500, "application/json", "\"msg\"", some (Json.str "msg")⟩
      ≠ Except.ok (Json.str "msg") ∧
    pyFalsy (Json.str "msg") = false := by
  refine ⟨rfl, fun h => ?_, rfl⟩
  rw [show extract_error_message
      ⟨500, "application/json", "\"msg\"", some (Json.str "msg")⟩
    = Except.error PyExcKind.typeError from rfl] at h
  exact Except.noConfusion h

/-- C7 (amended): for JSON object bodies the helper returns the value of
the first present key among "message", "msg", "detail" in priority order;
for decoded bodies where none of the three names occurs (per Python's `in`)
it returns the whole decoded body when truthy and the empty string when
falsy; for undecodable-JSON or non-JSON content with a plain-text content
type it returns the trimmed body text; and the empty string otherwise —
except that a non-object JSON body containing one of the three names (as
array element or substring) raises `TypeError`. -/
theorem spec_c7_extract_error_message (r : Response) (j v : Json)
    (kvs : List (String × Json)) :
    (strHas r.contentType "application/json" = true →
      r.jsonBody = some (Json.obj kvs) →
      jsonGet kvs "message" = some v →
      extract_error_message r = Except.ok v) ∧
    (strHas r.contentType "application/json" = true →
      r.jsonBody = some (Json.obj kvs) →
      jsonGet kvs "message" = none →
      jsonGet kvs "msg" = some v →
      extract_error_message r = Except.ok v) ∧
    (strHas r.contentType "application/json" = true →
      r.jsonBody = some (Json.obj kvs) →
      jsonGet kvs "message" = none →
      jsonGet kvs "msg" = none →
      jsonGet kvs "detail" = some v →
      extract_error_message r = Except.ok v) ∧
    (strHas r.contentType "application/json" = true →
      r.jsonBody = some j →
      pyContains "message" j = Except.ok false →
      pyContains "msg" j = Except.ok false →
      pyContains "detail" j = Except.ok false →
      pyFalsy j = false →
      extract_error_message r = Except.ok j) ∧
    (strHas r.contentType "application/json" = true →
      r.jsonBody = some j →
      pyContains "message" j = Except.ok false →
      pyContains "msg" j = Except.ok false →
      pyContains "detail" j = Except.ok false →
      pyFalsy j = true →
      extract_error_message r = Except.ok (Json.str "")) ∧
    (strHas r.contentType "application/json" = true →
      r.jsonBody = none →
      strHas r.contentType "text/plain" = true →
      extract_error_message r = Except.ok (Json.str (pyStrip r.text))) ∧
    (strHas r.contentType "application/json" = true →
      r.jsonBody = none →
      strHas r.contentType "text/plain" = false →
      extract_error_message r = Except.ok (Json.str "")) ∧
    (strHas r.contentType "application/json" = false →
      strHas r.contentType "text/plain" = true →
      extract_error_message r = Except.ok (Json.str (pyStrip r.text))) ∧
    (strHas r.contentType "application/json" = false →
      strHas r.contentType "text/plain" = false →
      extract_error_message r = Except.ok (Json.str "")) := by
  refine ⟨fun h1 h2 h3 => ?_, fun h1 h2 h3 h4 => ?_,
    fun h1 h2 h3 h4 h5 => ?_, fun h1 h2 h3 h4 h5 h6 => ?_,
    fun h1 h2 h3 h4 h5 h6 => ?_, fun h1 h2 h3 => ?_, fun h1 h2 h3 => ?_,
    fun h1 h2 => ?_, fun h1 h2 => ?_⟩
  · simp [extract_error_message, h1, h2, pyContains, pyGetItem, Bind.bind,
      Except.bind, h3]
  · simp [extract_error_message, h1, h2, pyContains, pyGetItem, Bind.bind,
      Except.bind, h3, h4]
  · simp [extract_error_message, h1, h2, pyContains, pyGetItem, Bind.bind,
      Except.bind, h3, h4, h5]
  · simp [extract_error_message, h1, h2, Bind.bind, Except.bind, Pure.pure,
      Except.pure, h3, h4, h5, h6]
  · simp [extract_error_message, h1, h2, Bind.bind, Except.bind, Pure.pure,
      Except.pure, h3, h4, h5, h6]
  · simp [extract_error_message, h1, h2, h3]
  · simp [extract_error_message, h1, h2, h3]
  · simp [extract_error_message, h1, h2]
  · simp [extract_error_message, h1, h2]

/-- C7 witness: a JSON object body with a "message" key yields that key's
value, and a plain-text body yields the trimmed text. -/
theorem spec_c7_witness :
    strHas "application/json" "application/json" = true ∧
    jsonGet [("message", Json.str "boom")] "message"
      = some (Json.str "boom") ∧
    extract_error_message ⟨500, "application/json", "",
        some (Json.obj [("message", Json.str "boom")])⟩
      = Except.ok (Json.str "boom") ∧
    strHas "text/plain" "application/json" = false ∧
    strHas "text/plain" "text/plain" = true ∧
    extract_error_message ⟨500, "text/plain", " denied ", none⟩
      = Except.ok (Json.str "denied") :=
  ⟨rfl, rfl,
   (spec_c7_extract_error_message
     ⟨500, "application/json", "",
       some (Json.obj [("message", Json.str "boom")])⟩
     Json.null (Json.str "boom") [("message", Json.str "boom")]).1
     rfl rfl rfl,
   rfl, rfl,
   (spec_c7_extract_error_message ⟨500, "text/plain", " denied ", none⟩
     Json.null Json.null []).2.2.2.2.2.2.2.1 rfl rfl⟩

/-- C3 counterexample: a 403 whose body is plain text (not JSON) makes
`_authenticate` fail with a bare `AuthenticationError` — the debug
`print(response.json())` raises first and is caught as a request
exception — even though a message ("denied") is extractable, contradicting
the claim that every non-200 carries the extracted message. -/
theorem spec_c3_counterexample :
    _authenticate (NetOutcome.success ⟨403, "text/plain", "denied", none⟩)
      = AuthResult.bareAuthError ∧
    extract_error_message ⟨403, "text/plain", "denied", none⟩
      = Except.ok (Json.str "denied") ∧
    _authenticate (NetOutcome.success ⟨403, "text/plain", "denied", none⟩)
      ≠ AuthResult.authError (Json.str "denied")
          ⟨403, "text/plain", "denied", none⟩ := by
  refine ⟨rfl, rfl, fun h => ?_⟩
  rw [show _authenticate
      (NetOutcome.success ⟨403, "text/plain", "denied", none⟩)
    = AuthResult.bareAuthError from rfl] at h
  exact AuthResult.noConfusion h

/-- C3 (amended): a network-level failure yields a bare
`AuthenticationError`; a response whose body is not valid JSON also yields
a bare `AuthenticationError` (the debug print raises first); a non-200
response with a JSON body yields `AuthenticationError` carrying the
extracted message; a 200 response with a JSON object body yields the
`accessToken` field as the token; and the authenticator sets the
`Authorization: Bearer <token>` header on every request it decorates. -/
theorem spec_c3_authentication (r : Response) (j m : Json)
    (kvs : List (String × Json)) (tok : String)
    (headers : List (String × String)) :
    (_authenticate NetOutcome.netError = AuthResult.bareAuthError) ∧
    (r.jsonBody = none →
      _authenticate (NetOutcome.success r) = AuthResult.bareAuthError) ∧
    (r.jsonBody = some j → r.status_code ≠ 200 →
      extract_error_message r = Except.ok m →
      _authenticate (NetOutcome.success r) = AuthResult.authError m r) ∧
    (r.jsonBody = some (Json.obj kvs) → r.status_code = 200 →
      _authenticate (NetOutcome.success r)
        = AuthResult.token (jsonGet kvs "accessToken")) ∧
    (dictGet (authDecorate tok headers) "Authorization"
      = some ("Bearer " ++ tok)) := by
  refine ⟨rfl, fun hb => ?_, fun hb h200 hext => ?_, fun hb h200 => ?_, ?_⟩
  · simp [_authenticate, hb]
  · simp [_authenticate, hb, h200, hext]
  · simp [_authenticate, hb, h200]
  · simp [authDecorate, dictGet_dictSet]

/-- C3 witness: a mocked 403 with body `{"message":"bad creds"}` fails with
`AuthenticationError` whose message is "bad creds"; a mocked 200 with
`{"accessToken":"T"}` yields token "T"; and decorating a request with token
"T" sets `Authorization: Bearer T`; a network failure gives the bare error. -/
theorem spec_c3_witness :
    _authenticate NetOutcome.netError = AuthResult.bareAuthError ∧
    extract_error_message ⟨403, "application/json", "",
        some (Json.obj [("message", Json.str "bad creds")])⟩
      = Except.ok (Json.str "bad creds") ∧
    _authenticate (NetOutcome.success ⟨403, "application/json", "",
        some (Json.obj [("message", Json.str "bad creds")])⟩)
      = AuthResult.authError (Json.str "bad creds")
          ⟨403, "application/json", "",
            some (Json.obj [("message", Json.str "bad creds")])⟩ ∧
    _authenticate (NetOutcome.success ⟨200, "application/json", "",
        some (Json.obj [("accessToken", Json.str "T")])⟩)
      = AuthResult.token (some (Json.str "T")) ∧
    dictGet (authDecorate "T" []) "Authorization" = some "Bearer T" :=
  ⟨(spec_c3_authentication ⟨403, "application/json", "",
      some (Json.obj [("message", Json.str "bad creds")])⟩
      (Json.obj [("message", Json.str "bad creds")])
      (Json.str "bad creds") [] "T" []).1,
   rfl,
   (spec_c3_authentication ⟨403, "application/json", "",
      some (Json.obj [("message", Json.str "bad creds")])⟩
      (Json.obj [("message", Json.str "bad creds")])
      (Json.str "bad creds") [] "T" []).2.2.1 rfl (by decide) rfl,
   (spec_c3_authentication ⟨200, "application/json", "",
      some (Json.obj [("accessToken", Json.str "T")])⟩
      Json.null Json.null [("accessToken", Json.str "T")] "T" []).2.2.2.1
      rfl rfl,
   (spec_c3_authentication ⟨200, "", "", none⟩ Json.null Json.null []
      "T" []).2.2.2.2⟩

/-- C1 counterexample: the client defines three submission operations, not
four — there is no `submit_weekly_schedule` method and no operation posting
to `/Documents/WTOWeek`. -/
theorem spec_c1_counterexample :
    clientSubmissionOperations.length = 3 ∧
    "submit_weekly_schedule" ∉ clientSubmissionOperations.map Prod.fst ∧
    "/Documents/WTOWeek" ∉ clientSubmissionOperations.map Prod.snd :=
  ⟨rfl, by decide, by decide⟩

/-- C1 (amended): the client exposes three public submission operations —
`submit_work_card`, `submit_overtime`, `submit_daily_schedule` — and for
every input each POSTs its single-element batch to its endpoint
(`/Documents/WRKCardSE`, `/Documents/OvTime`, `/Documents/WTODaily`)
wrapped under its payload key (`Cards.Card`, `Overtimes.Overtime`,
`WTOS.WTO` respectively). -/
theorem spec_c1_submit_operations (w : WorkCardArgs) (o : OvertimeArgs)
    (d : DailyScheduleArgs) :
    submit_work_card w =
      { method := "POST", endpoint := "/Documents/WRKCardSE",
        payload := Json.obj [("Cards", Json.obj [("Card",
          Json.arr [workCardBatchElement w])])] } ∧
    submit_overtime o =
      { method := "POST", endpoint := "/Documents/OvTime",
        payload := Json.obj [("Overtimes", Json.obj [("Overtime",
          Json.arr [overtimeBatchElement o])])] } ∧
    submit_daily_schedule d =
      { method := "POST", endpoint := "/Documents/WTODaily",
        payload := Json.obj [("WTOS", Json.obj [("WTO",
          Json.arr [dailyScheduleBatchElement d])])] } ∧
    clientSubmissionOperations =
      [("submit_work_card", "/Documents/WRKCardSE"),
       ("submit_overtime", "/Documents/OvTime"),
       ("submit_daily_schedule", "/Documents/WTODaily")] :=
  ⟨rfl, rfl, rfl, rfl⟩

/-- C10 counterexample: the authentication URL built from the default base
URL does contain a doubled slash — the one in the `https://` scheme
separator — so "contains no doubled slash" is false as stated. -/
theorem spec_c10_counterexample :
    strHas (auth_url default_base_url) "//" = true ∧
    auth_url default_base_url
      = "https://trialeservices.yeka.gr/WebServicesAPI/api/Authentication" :=
  ⟨by decide, rfl⟩

/-- C10 (amended): submission URLs are `base_url + "/" + endpoint` with
every endpoint starting in "/", so they contain a doubled slash beyond any
in the base URL (with the default base they end in
`api//Documents/WRKCardSE`); the authentication URL is built by direct
concatenation and, with the default base, its only doubled slash is the
`https://` scheme separator. -/
theorem spec_c10_urls (base e : String) :
    request_url base e = base ++ "/" ++ e ∧
    auth_url base = base ++ "/Authentication" ∧
    strStarts work_card_endpoint "/" = true ∧
    strStarts overtime_endpoint "/" = true ∧
    strStarts daily_schedule_endpoint "/" = true ∧
    (e = work_card_endpoint ∨ e = overtime_endpoint ∨
        e = daily_schedule_endpoint →
      strHas (request_url base e) "//" = true) ∧
    strEnds (request_url default_base_url work_card_endpoint)
      "api//Documents/WRKCardSE" = true ∧
    strStarts (auth_url default_base_url) "https://" = true ∧
    strHas "trialeservices.yeka.gr/WebServicesAPI/api/Authentication" "//"
      = false := by
  refine ⟨rfl, rfl, by decide, by decide, by decide, fun h => ?_,
    by decide, by decide, by decide⟩
  have hsplit : ∀ t : String, (base ++ "/" ++ t).data
      = base.data ++ (("/" : String).data ++ t.data) := by
    intro t
    rw [strData_append, strData_append, List.append_assoc]
  rcases h with rfl | rfl | rfl <;>
    · show listHas _ _ = true
      simp only [request_url]
      rw [hsplit]
      exact listHas_append _ _ _ (by decide)

/-- C10 witness: the work-card endpoint is one of the three endpoints, and
the resulting submission URL over the default base contains a doubled
slash. -/
theorem spec_c10_witness :
    (work_card_endpoint = work_card_endpoint ∨
      work_card_endpoint = overtime_endpoint ∨
      work_card_endpoint = daily_schedule_endpoint) ∧
    strHas (request_url default_base_url work_card_endpoint) "//" = true :=
  ⟨Or.inl rfl,
   (spec_c10_urls default_base_url work_card_endpoint).2.2.2.2.2.1
     (Or.inl rfl)⟩

/-- C8 witness: the relation between `get_day_of_week` and the Monday-based
weekday index, evaluated at the concrete Sunday 2024-03-10. -/
theorem spec_c8_witness :
    get_day_of_week (some ⟨2024, 3, 10⟩)
      = some ((PyDate.weekday ⟨2024, 3, 10⟩ + 1) % 7) ∧
    (PyDate.weekday ⟨2024, 3, 10⟩ + 1) % 7 < 7 :=
  ⟨(spec_c8_day_of_week ⟨2024, 3, 10⟩).1,
   (spec_c8_day_of_week ⟨2024, 3, 10⟩).2.1⟩
